import Mathlib

/-!
Verification of the kalshi-btc-tool decision-and-execution engine.

Shallow embedding of the relevant JavaScript sources:
  * `src/tool.js`        — fusion function `calculatePrediction` (namespace `Tool`)
  * `src/runner.js`      — fusion variant, order execution, scheduler (namespace `Runner`)
  * `src/runner-late.js` — fusion variant (byte-identical to runner.js's), risk-gate
                           sequence in `runTrade`, position sizing, order execution,
                           scheduler with per-hour marker (namespace `RunnerLate`)
  * `src/data/kalshi.js` — market selection: `parseStrikePrice`, `parseExpiration`,
                           `getNextEventMarkets`, `pickBestMarket` (namespace `Kalshi`)

JavaScript numbers are embedded as exact rationals `ℚ`; timestamps are epoch
milliseconds `ℤ`.  A nullable numeric value is `Option ℚ`, and JavaScript's
truthiness test on it (`if (x)`) is `truthy`, which also maps the number 0 to
`none`.  `Math.round` (halves toward positive infinity) is `jsRound`.
-/

namespace KBT

/-- JavaScript truthiness of a nullable number: `null`/`undefined` and `0`
are falsy; any other number is kept. -/
def truthy (o : Option ℚ) : Option ℚ :=
  o.bind fun q => if q = 0 then none else some q

/-- JavaScript `Math.round`: rounds half toward positive infinity. -/
def jsRound (q : ℚ) : ℤ := ⌊q + 1/2⌋

/-- The optional technical-analysis bundle handed to the fusion functions
(`ta` in the source): `ta.prediction.upProbability` and the signed deltas
`ta.delta["1m"]`, `ta.delta["5m"]`.  A missing field is `none`. -/
structure Ta where
  upProbability : Option ℚ
  delta1m : Option ℚ
  delta5m : Option ℚ
deriving DecidableEq

/-- Order-book summary consumed by `tool.js` (`yesLiquidity`, `noLiquidity`). -/
structure OrderbookSummary where
  yesLiquidity : Option ℚ
  noLiquidity : Option ℚ
deriving DecidableEq

/-- Result of a fusion function: `side` is `"YES"`/`"NO"` (tool.js) or
`"yes"`/`"no"` (runner variants) or `null` on missing data; `confidence` is the
integer returned by `Math.round`.  `isAboveStrike` is only populated by the
runner variants (false on their missing-data path, where the source leaves the
field absent). -/
structure Prediction where
  side : Option String
  confidence : ℤ
  isAboveStrike : Bool
deriving DecidableEq

namespace Tool

/-- `tool.js` lines 68–79: the momentum adjustment block of
`calculatePrediction`, as a function of `isAboveStrike` and `ta?.delta?.["1m"]`
(after the truthiness test). -/
def momentumAdjOf (isAboveStrike : Bool) (delta1m : Option ℚ) : ℚ :=
  match delta1m with
  | some d =>
    let m : ℚ := 0
    let m := if isAboveStrike ∧ d < 0 then -5 else m
    let m := if ¬isAboveStrike ∧ d > 0 then -5 else m
    let m := if isAboveStrike ∧ d > 0 then 5 else m
    let m := if ¬isAboveStrike ∧ d < 0 then 5 else m
    m
  | none => 0

/-- `tool.js` lines 81–93: the order-book sentiment block. -/
def orderbookAdjOf (orderbook : Option OrderbookSummary) : ℚ :=
  match orderbook with
  | some ob =>
    let yesLiq := ob.yesLiquidity.getD 0
    let noLiq := ob.noLiquidity.getD 0
    let total := yesLiq + noLiq
    if total > 0 then
      let yesBias := yesLiq / total
      let a : ℚ := 0
      let a := if yesBias > 0.6 then 3 else a
      let a := if yesBias < 0.4 then -3 else a
      a
    else 0
  | none => 0

/-- `tool.js` lines 95–102: the volatility penalty block. -/
def volatilityPenaltyOf (delta5m : Option ℚ) : ℚ :=
  match delta5m with
  | some d =>
    let absMove := |d|
    let v : ℚ := 0
    let v := if absMove > 200 then 10 else v
    let v := if absMove > 400 then 20 else v
    v
  | none => 0

/-- `tool.js` `calculatePrediction` (lines 27–130).  The `reasons` and
`weights` fields of the JS return value are presentation-only and omitted. -/
def calculatePrediction (currentPrice strikePrice : Option ℚ) (ta : Option Ta)
    (expiresInMinutes : ℚ) (orderbook : Option OrderbookSummary) : Prediction :=
  match truthy currentPrice, truthy strikePrice with
  | some cp, some sp =>
    let priceDistance := cp - sp
    let priceDistancePct := |priceDistance / sp| * 100
    let isAboveStrike := priceDistance > 0
    let taWeight : ℚ :=
      if expiresInMinutes ≤ 5 then 0.05
      else if expiresInMinutes ≤ 15 then 0.20
      else if expiresInMinutes ≤ 30 then 0.40
      else 0.60
    let priceWeight : ℚ :=
      if expiresInMinutes ≤ 5 then 0.95
      else if expiresInMinutes ≤ 15 then 0.80
      else if expiresInMinutes ≤ 30 then 0.60
      else 0.40
    let priceScore : ℚ := 50
    let priceScore := if priceDistancePct > 0.5 then (if isAboveStrike then 75 else 25) else priceScore
    let priceScore := if priceDistancePct > 1 then (if isAboveStrike then 85 else 15) else priceScore
    let priceScore := if priceDistancePct > 2 then (if isAboveStrike then 95 else 5) else priceScore
    let taScore : ℚ :=
      match truthy (ta.bind Ta.upProbability) with
      | some u => u
      | none => 50
    let momentumAdj := momentumAdjOf isAboveStrike (truthy (ta.bind Ta.delta1m))
    let orderbookAdj := orderbookAdjOf orderbook
    let volatilityPenalty := volatilityPenaltyOf (truthy (ta.bind Ta.delta5m))
    let combinedScore := priceScore * priceWeight + taScore * taWeight + momentumAdj + orderbookAdj
    let finalConfidence := max 10 (min 95 (combinedScore - volatilityPenalty))
    let side := if finalConfidence > 50 then "YES" else "NO"
    let confidence := if side = "YES" then finalConfidence else 100 - finalConfidence
    { side := some side, confidence := jsRound confidence, isAboveStrike := decide isAboveStrike }
  | _, _ => { side := none, confidence := 0, isAboveStrike := false }

end Tool

namespace Runner

/-- `runner.js` lines 254–263 = `runner-late.js` lines 340–349: the momentum
block of `calculatePrediction`, as a function of `isAboveStrike` and the
truthiness-filtered `ta?.delta?.["1m"]`. -/
def momentumAdjustmentOf (isAboveStrike : Bool) (delta1m : Option ℚ) : ℚ :=
  match delta1m with
  | some d =>
    let movingUp := d > 0
    let m : ℚ := 0
    let m := if isAboveStrike ∧ ¬movingUp then -5 else m
    let m := if ¬isAboveStrike ∧ movingUp then -5 else m
    let m := if isAboveStrike ∧ movingUp then 3 else m
    let m := if ¬isAboveStrike ∧ ¬movingUp then 3 else m
    m
  | none => 0

/-- `runner.js` lines 244–251 = `runner-late.js` lines 330–337: the TA
adjustment block. -/
def taAdjustmentOf (isAboveStrike : Bool) (upProbability : Option ℚ) : ℚ :=
  match upProbability with
  | some taUp =>
    let a : ℚ := 0
    let a := if isAboveStrike ∧ taUp > 55 then 5 else a
    let a := if isAboveStrike ∧ taUp < 45 then -10 else a
    let a := if ¬isAboveStrike ∧ taUp < 45 then 5 else a
    let a := if ¬isAboveStrike ∧ taUp > 55 then -10 else a
    a
  | none => 0

/-- `calculatePrediction` of `runner.js` (lines 205–278); `runner-late.js`
lines 291–364 contain a byte-identical copy, so this single definition serves
both files.  The `priceDistancePct` string the JS attaches to the result is
presentation-only and omitted. -/
def calculatePrediction (currentPrice strikePrice : Option ℚ) (ta : Option Ta)
    (expiresInMinutes : ℚ) : Prediction :=
  match truthy currentPrice, truthy strikePrice with
  | some cp, some sp =>
    let priceDistance := cp - sp
    let priceDistancePct := |priceDistance / sp| * 100
    let isAboveStrike := priceDistance > 0
    let priceWeight : ℚ :=
      if expiresInMinutes ≤ 5 then 0.95
      else if expiresInMinutes ≤ 10 then 0.85
      else if expiresInMinutes ≤ 20 then 0.70
      else 0.50
    let taWeight := 1 - priceWeight
    let priceConfidence : ℚ :=
      if priceDistancePct ≥ 0.5 then 90
      else if priceDistancePct ≥ 0.2 then 75
      else if priceDistancePct ≥ 0.1 then 60
      else 50
    let taAdjustment := taAdjustmentOf isAboveStrike (truthy (ta.bind Ta.upProbability))
    let momentumAdjustment := momentumAdjustmentOf isAboveStrike (truthy (ta.bind Ta.delta1m))
    let baseConfidence := priceConfidence * priceWeight + 50 * taWeight
    let finalConfidence := max 30 (min 95 (baseConfidence + taAdjustment + momentumAdjustment))
    let side := if isAboveStrike then "yes" else "no"
    { side := some side, confidence := jsRound finalConfidence, isAboveStrike := decide isAboveStrike }
  | _, _ => { side := none, confidence := 0, isAboveStrike := false }

end Runner

namespace Kalshi

/-- A market object as consumed by `src/data/kalshi.js`.  The regex strike
extraction of `parseStrikePrice` (first numeric substring of
`title`/`subtitle`, and the `-T…` suffix of `ticker`) is abstracted into the
already-parsed numeric candidates `titleStrike` and `tickerStrike` (`none`
when no match).  The three timestamp strings are likewise carried as
already-parsed epoch-millisecond values, `none` standing for a missing field
or an unparseable date. -/
structure Market where
  ticker : String
  event_ticker : Option String
  titleStrike : Option ℚ
  tickerStrike : Option ℚ
  floor_strike : Option ℚ
  ceiling_strike : Option ℚ
  close_time : Option ℤ
  expected_expiration_time : Option ℤ
  expiration_time : Option ℤ
  yes_ask : Option ℚ
  no_ask : Option ℚ
deriving DecidableEq

/-- The sanity test `kalshi.js` applies to each strike candidate:
`Number.isFinite(num) && num > 1000`. -/
def strikeCandidate (o : Option ℚ) : Option ℚ :=
  o.bind fun n => if n > 1000 then some n else none

/-- `kalshi.js` `parseStrikePrice` (lines 121–147): title match first, then
ticker match, then `floor_strike`, then `ceiling_strike`; each candidate is
kept only if it exceeds 1000. -/
def parseStrikePrice (m : Market) : Option ℚ :=
  (strikeCandidate m.titleStrike).orElse fun _ =>
    (strikeCandidate m.tickerStrike).orElse fun _ =>
      (strikeCandidate m.floor_strike).orElse fun _ =>
        strikeCandidate m.ceiling_strike

/-- `kalshi.js` `parseExpiration` (lines 158–164): prefer `close_time`, then
`expected_expiration_time`, then `expiration_time`. -/
def parseExpiration (m : Market) : Option ℤ :=
  m.close_time.orElse fun _ =>
    m.expected_expiration_time.orElse fun _ => m.expiration_time

/-- The filter `pickBestMarket` applies to each candidate (line 183):
`m.strike && m.expiration && m.expiration.getTime() > now`; the strike is
always `> 1000` when present, so its truthiness is `isSome`. -/
def marketFilter (now : ℤ) (m : Market) : Bool :=
  (parseStrikePrice m).isSome &&
    (match parseExpiration m with
     | some t => decide (t > now)
     | none => false)

/-- The sort key of `pickBestMarket` (lines 189–196):
`0.7 * distanceFromPrice / currentPrice + 0.3 * timeToExpiry / 3600000`. -/
def marketScore (currentPrice : ℚ) (now : ℤ) (m : Market) : ℚ :=
  let strike := (parseStrikePrice m).getD 0
  let timeToExpiry : ℚ := ((parseExpiration m).getD 0 - now : ℤ)
  0.7 * (|strike - currentPrice| / currentPrice) + 0.3 * (timeToExpiry / 3600000)

/-- `kalshi.js` `pickBestMarket` (lines 173–199): filter to future, parseable
markets, sort ascending by `marketScore`, return the head (or `null`). -/
def pickBestMarket (markets : List Market) (currentPrice : Option ℚ) (now : ℤ) :
    Option Market :=
  if markets.isEmpty then none
  else
    match truthy currentPrice with
    | none => none
    | some cp =>
      let candidates := markets.filter (marketFilter now)
      let sorted := candidates.mergeSort fun a b =>
        decide (marketScore cp now a ≤ marketScore cp now b)
      sorted.head?

/-- First-occurrence deduplication, mirroring JavaScript object-key insertion
order in `groupMarketsByEvent`. -/
def dedupFirst (l : List String) : List String :=
  l.foldl (fun acc x => if x ∈ acc then acc else acc ++ [x]) []

/-- `kalshi.js` `getNextEventMarkets` (lines 223–241) composed with
`groupMarketsByEvent` (lines 207–216): group by `event_ticker` (markets
without one are skipped), look at the first market of each group, and keep
the group with the strictly earliest future expiration. -/
def getNextEventMarkets (markets : List Market) (now : ℤ) : List Market :=
  let eventTickers := dedupFirst (markets.filterMap Market.event_ticker)
  let step := fun (acc : Option ℤ × List Market) (et : String) =>
    let eventMarkets := markets.filter fun m => m.event_ticker = some et
    match eventMarkets with
    | [] => acc
    | m0 :: _ =>
      match parseExpiration m0 with
      | none => acc
      | some t =>
        if t ≤ now then acc
        else
          match acc.1 with
          | none => (some t, eventMarkets)
          | some e => if t < e then (some t, eventMarkets) else acc
  (eventTickers.foldl step (none, [])).2

end Kalshi

/-- One OHLC candle, as consumed by the momentum and volatility checks of
`runner-late.js` `runTrade`. -/
structure Candle where
  close : ℚ
  high : ℚ
  low : ℚ
deriving DecidableEq

namespace RunnerLate

/-- `runner-late.js` `TRADE_CONFIG` (lines 47–63), the fields the modelled
core reads. -/
def positionSizePct : ℚ := 10
def minContracts : ℤ := 1
def maxContracts : ℤ := 100
def runAtMinute : ℕ := 50
def minConfidence : ℤ := 50
def coinFlipThreshold : ℚ := 20
def momentumPenalty : ℤ := 10
def maxVolatility : ℚ := 0.8

/-- `runner-late.js` `calculatePositionSize` (lines 246–257). -/
def calculatePositionSize (balanceDollars pricePerContract : Option ℚ) : ℤ :=
  match truthy balanceDollars, truthy pricePerContract with
  | some b, some p =>
    let maxSpendCents := b * 100 * (positionSizePct / 100)
    let contracts := ⌊maxSpendCents / p⌋
    max minContracts (min maxContracts contracts)
  | _, _ => minContracts

/-- `runner-late.js` lines 387: `spotData.price || ticker.price`, followed by
the `!currentPrice` test. -/
def currentPriceOf (spotPrice tickerPrice : Option ℚ) : Option ℚ :=
  (truthy spotPrice).orElse fun _ => truthy tickerPrice

/-- `runner-late.js` lines 407–443: strike, expiration, and prediction for the
selected market.  The technical-indicator pipeline (RSI/MACD/Heiken-Ashi,
out of scope per the spec) is abstracted: its output bundle `ta` is an input. -/
def predictionOf (cp : ℚ) (best : Kalshi.Market) (ta : Option Ta) (now : ℤ) :
    Prediction :=
  let expiresInMinutes : ℚ :=
    match Kalshi.parseExpiration best with
    | some t => ((jsRound (((t - now : ℤ) : ℚ) / 60000) : ℤ) : ℚ)
    | none => 999
  Runner.calculatePrediction (some cp) (Kalshi.parseStrikePrice best) ta expiresInMinutes

/-- `runner-late.js` lines 466–477: the momentum confidence adjustment
(`candles.slice(-3)`, last-minus-first close, penalty when moving toward the
strike). -/
def adjustedConfidenceOf (prediction : Prediction) (candles : List Candle) : ℤ :=
  if candles.length ≥ 3 then
    let recentCloses := (candles.drop (candles.length - 3)).map Candle.close
    let momentum := recentCloses.getD 2 0 - recentCloses.getD 0 0
    let movingTowardStrike :=
      (prediction.isAboveStrike ∧ momentum < 0) ∨ (¬prediction.isAboveStrike ∧ momentum > 0)
    if movingTowardStrike then prediction.confidence - momentumPenalty
    else prediction.confidence
  else prediction.confidence

/-- `runner-late.js` lines 482–492: the volatility filter over
`candles.slice(-5)` (high-minus-low range as a percentage of the current
price).  The slice is non-empty whenever the length guard holds, so the `[]`
branch is unreachable. -/
def highVolatilityOf (candles : List Candle) (cp : ℚ) : Bool :=
  if candles.length ≥ 5 then
    match candles.drop (candles.length - 5) with
    | [] => false
    | c0 :: rest =>
      let high := rest.foldl (fun acc c => max acc c.high) c0.high
      let low := rest.foldl (fun acc c => min acc c.low) c0.low
      decide ((high - low) / cp * 100 > maxVolatility)
  else false

/-- Outcome of one `runTrade` cycle of `runner-late.js`, keeping which check
ended the cycle. -/
inductive TradeResult where
  | noPriceData
  | noMarkets
  | noBestMarket
  | vetoCoinFlip
  | vetoVolatility
  | vetoNoSide
  | vetoLowConfidence
  | vetoBadAsk
  | vetoNoBalance
  | placed (side : String) (count : ℤ) (askPrice : ℚ)
deriving DecidableEq

/-- Whether a cycle outcome placed an order. -/
def TradeResult.isPlaced : TradeResult → Bool
  | .placed _ _ _ => true
  | _ => false

/-- `runner-late.js` `runTrade` (lines 369–569), modelled from the fetched
data to the decision whether (and with what) `placeOrder` is called.  Fetches
and notifications are external; the edge computation (lines 514–530) only
logs and is omitted.  `Math.abs(currentPrice - strikePrice)` coerces a `null`
strike to 0, hence the `getD 0`. -/
def runTrade (spotPrice tickerPrice : Option ℚ) (markets : List Kalshi.Market)
    (candles : List Candle) (ta : Option Ta) (balance : Option ℚ) (now : ℤ) :
    TradeResult :=
  match currentPriceOf spotPrice tickerPrice with
  | none => .noPriceData
  | some cp =>
    let nextEventMarkets := Kalshi.getNextEventMarkets markets now
    if nextEventMarkets.isEmpty then .noMarkets
    else
      match Kalshi.pickBestMarket nextEventMarkets (some cp) now with
      | none => .noBestMarket
      | some best =>
        let prediction := predictionOf cp best ta now
        let distanceFromStrike := |cp - (Kalshi.parseStrikePrice best).getD 0|
        if distanceFromStrike < coinFlipThreshold then .vetoCoinFlip
        else
          let adjustedConfidence := adjustedConfidenceOf prediction candles
          if highVolatilityOf candles cp then .vetoVolatility
          else
            match prediction.side with
            | none => .vetoNoSide
            | some side =>
              if adjustedConfidence < minConfidence then .vetoLowConfidence
              else
                match truthy (if side = "yes" then best.yes_ask else best.no_ask) with
                | none => .vetoBadAsk
                | some askPrice =>
                  if askPrice ≥ 100 then .vetoBadAsk
                  else
                    match truthy balance with
                    | none => .vetoNoBalance
                    | some b =>
                      .placed side (calculatePositionSize (some b) (some askPrice)) askPrice

end RunnerLate

namespace RunnerLate

/-- The five veto kinds of the spec's documented Risk Gate order (§4.3). -/
inductive VetoKind where
  | missingData
  | tooClose
  | volTooHigh
  | confTooLow
  | badPrice
deriving DecidableEq

/-- Which documented veto a cycle outcome reports.  The first three abort
branches and the (unreachable) null-side branch are all "missing price or
market data"; the missing-balance abort and a placed order are not among the
five documented veto conditions. -/
def vetoOfResult : TradeResult → Option VetoKind
  | .noPriceData => some .missingData
  | .noMarkets => some .missingData
  | .noBestMarket => some .missingData
  | .vetoNoSide => some .missingData
  | .vetoCoinFlip => some .tooClose
  | .vetoVolatility => some .volTooHigh
  | .vetoLowConfidence => some .confTooLow
  | .vetoBadAsk => some .badPrice
  | .vetoNoBalance => none
  | .placed _ _ _ => none

/-- The reference price and selected market of a cycle, `none` when any of
the missing-data checks of `runTrade` fires. -/
def tradeCtx (spotPrice tickerPrice : Option ℚ) (markets : List Kalshi.Market)
    (now : ℤ) : Option (ℚ × Kalshi.Market) :=
  match currentPriceOf spotPrice tickerPrice with
  | none => none
  | some cp =>
    match Kalshi.pickBestMarket (Kalshi.getNextEventMarkets markets now) (some cp) now with
    | none => none
    | some best => some (cp, best)

/-- Veto condition 2 of the spec: distance from strike below the floor. -/
def tooCloseCondOf : Option (ℚ × Kalshi.Market) → Bool
  | some (cp, best) =>
    decide (|cp - (Kalshi.parseStrikePrice best).getD 0| < coinFlipThreshold)
  | none => false

/-- Veto condition 3 of the spec: recent volatility above the ceiling. -/
def volCondOf (candles : List Candle) : Option (ℚ × Kalshi.Market) → Bool
  | some (cp, _) => highVolatilityOf candles cp
  | none => false

/-- Veto condition 4 of the spec: (momentum-adjusted) confidence below the
minimum. -/
def confCondOf (candles : List Candle) (ta : Option Ta) (now : ℤ) :
    Option (ℚ × Kalshi.Market) → Bool
  | some (cp, best) =>
    decide (adjustedConfidenceOf (predictionOf cp best ta now) candles < minConfidence)
  | none => false

/-- Veto condition 5 of the spec: execution price missing or at/above the
ceiling. -/
def badPriceCondOf (ta : Option Ta) (now : ℤ) :
    Option (ℚ × Kalshi.Market) → Bool
  | some (cp, best) =>
    (match (predictionOf cp best ta now).side with
     | some side =>
       (match truthy (if side = "yes" then best.yes_ask else best.no_ask) with
        | none => true
        | some a => decide (a ≥ 100))
     | none => false)
  | none => false

/-- Modelled from the spec (§4.3): the documented Risk Gate veto order —
missing data, then distance-from-strike below the floor, then volatility
above the ceiling, then confidence below the minimum, then execution price
missing or too high — first match wins. -/
def specFirstVeto (spotPrice tickerPrice : Option ℚ) (markets : List Kalshi.Market)
    (candles : List Candle) (ta : Option Ta) (now : ℤ) : Option VetoKind :=
  let ctx := tradeCtx spotPrice tickerPrice markets now
  if ctx.isNone then some .missingData
  else if tooCloseCondOf ctx then some .tooClose
  else if volCondOf candles ctx then some .volTooHigh
  else if confCondOf candles ta now ctx then some .confTooLow
  else if badPriceCondOf ta now ctx then some .badPrice
  else none

end RunnerLate

namespace Exec

/-- What one HTTP submission attempt of `placeOrder` comes back with, as the
code distinguishes the cases (`runner.js` lines 124–162, `runner-late.js`
lines 152–190):
  * `ok`         — 2xx status, body parses as JSON (`resolve success`);
  * `okBad`      — 2xx status, `JSON.parse` throws (the outer `catch`);
  * `httpFail`   — non-2xx status, body parses; `message` is
                   `json.message` with `none` for an absent-or-falsy field,
                   `raw` the raw body (`json.message || data`);
  * `httpFailRaw`— non-2xx status, `JSON.parse` throws;
  * `netError`   — the request's `error` event;
  * `timeout`    — the request's `timeout` event. -/
inductive AttemptResult where
  | ok (raw : String)
  | okBad (raw : String)
  | httpFail (message : Option String) (raw : String)
  | httpFailRaw (raw : String)
  | netError (msg : String)
  | timeout
deriving DecidableEq

/-- Final value `placeOrder` resolves with, plus bookkeeping: how many
submission attempts were issued and the backoff sleeps (ms) taken between
them. -/
structure OrderOutcome where
  success : Bool
  error : Option String
  attemptsUsed : ℕ
  sleepsMs : List ℕ
deriving DecidableEq

/-- `TRADE_CONFIG.maxRetries` (both runner variants). -/
def maxRetries : ℕ := 2

/-- The error string a single (non-retried) attempt resolves with, and the
retry branches' final error.  `httpFail`: `json.message || data`. -/
def errOf : AttemptResult → Option String
  | .ok _ => none
  | .okBad raw => some raw
  | .httpFail message raw => some (message.getD raw)
  | .httpFailRaw raw => some raw
  | .netError msg => some msg
  | .timeout => some "Request timeout"

/-- The retry logic of `placeOrder` (`runner.js` lines 80–167,
`runner-late.js` lines 110–195; identical apart from order-body details
modelled separately).  `env i` is what the network returns for the attempt
with `retryCount = i`.  Per the source: a non-2xx parseable response and a
network error retry while `retryCount < maxRetries` after a 500 ms sleep; a
2xx response resolves success; a parse failure, a final failed retry, and a
timeout resolve failure immediately. -/
def placeOrder (env : ℕ → AttemptResult) (retryCount : ℕ) : OrderOutcome :=
  match env retryCount with
  | .ok _ => ⟨true, none, 1, []⟩
  | .okBad raw => ⟨false, some raw, 1, []⟩
  | .httpFail message raw =>
    if h : retryCount < maxRetries then
      let r := placeOrder env (retryCount + 1)
      ⟨r.success, r.error, r.attemptsUsed + 1, 500 :: r.sleepsMs⟩
    else ⟨false, some (message.getD raw), 1, []⟩
  | .httpFailRaw raw => ⟨false, some raw, 1, []⟩
  | .netError msg =>
    if h : retryCount < maxRetries then
      let r := placeOrder env (retryCount + 1)
      ⟨r.success, r.error, r.attemptsUsed + 1, 500 :: r.sleepsMs⟩
    else ⟨false, some msg, 1, []⟩
  | .timeout => ⟨false, some "Request timeout", 1, []⟩
termination_by maxRetries + 1 - retryCount
decreasing_by all_goals omega

/-- An attempt outcome the source's retry branches fire on: a non-2xx
JSON-parseable response or a network error. -/
def retryableFail : AttemptResult → Bool
  | .httpFail _ _ => true
  | .netError _ => true
  | _ => false

/-- The order body built by `runner.js` / `runner-late.js` `placeOrder`.  The
JS field `type` is rendered `orderType`. -/
structure OrderBody where
  ticker : String
  side : String
  action : String
  count : ℤ
  orderType : String
  yes_price : Option ℤ
  no_price : Option ℤ
deriving DecidableEq

/-- The single populated price field of an order body. -/
def submittedPrice (b : OrderBody) : Option ℤ :=
  match b.yes_price with
  | some p => some p
  | none => b.no_price

end Exec

namespace RunnerLate

/-- `runner-late.js` lines 119–134: limit order with
`fillPrice = Math.min(99, price + 1)` on the side's price field. -/
def orderBody (tick side : String) (count price : ℤ) : Exec.OrderBody :=
  let fillPrice := min 99 (price + 1)
  { ticker := tick, side := side, action := "buy", count := count,
    orderType := "limit",
    yes_price := if side = "yes" then some fillPrice else none,
    no_price := if side = "yes" then none else some fillPrice }

end RunnerLate

namespace Runner

/-- `runner.js` lines 89–107: market order when
`TRADE_CONFIG.useMarketOrder`, otherwise a limit order with
`priceWithBuffer = Math.min(99, price + 2)` on the side's price field. -/
def orderBody (useMarketOrder : Bool) (tick side : String) (count price : ℤ) :
    Exec.OrderBody :=
  if useMarketOrder then
    { ticker := tick, side := side, action := "buy", count := count,
      orderType := "market", yes_price := none, no_price := none }
  else
    let priceWithBuffer := min 99 (price + 2)
    { ticker := tick, side := side, action := "buy", count := count,
      orderType := "limit",
      yes_price := if side = "yes" then some priceWithBuffer else none,
      no_price := if side = "yes" then none else some priceWithBuffer }

end Runner

/-- One poll of a daemon scheduler: the wall clock's hour (0–23), minute and
second at the tick. -/
structure Poll where
  hour : ℕ
  minute : ℕ
  second : ℕ
deriving DecidableEq

namespace RunnerLate

/-- One `checkAndRun` poll of `runner-late.js` `startDaemon` (lines 595–609):
fires when the minute matches `runAtMinute` and `lastRunHour` differs from
the current hour, recording the hour in the marker. -/
def checkAndRun (lastRunHour : ℤ) (p : Poll) : ℤ × Bool :=
  if p.minute = runAtMinute ∧ lastRunHour ≠ (p.hour : ℤ) then ((p.hour : ℤ), true)
  else (lastRunHour, false)

/-- Number of cycle fires over a poll sequence, threading the `lastRunHour`
marker (initialised to `-1` by the daemon). -/
def fireCount (lastRunHour : ℤ) : List Poll → ℕ
  | [] => 0
  | p :: ps =>
    let s := checkAndRun lastRunHour p
    (if s.2 then 1 else 0) + fireCount s.1 ps

end RunnerLate

namespace Runner

/-- `runner.js` `TRADE_CONFIG.runAtMinute`. -/
def runAtMinute : ℕ := 54

/-- One `checkAndRun` poll of `runner.js` `startDaemon` (lines 438–447): fires
whenever the minute matches and the second is below 5 — there is no per-hour
marker in this variant. -/
def checkAndRunFired (p : Poll) : Bool :=
  p.minute = runAtMinute && p.second < 5

/-- Number of cycle fires of `runner.js`'s daemon over a poll sequence. -/
def fireCount (polls : List Poll) : ℕ :=
  (polls.filter checkAndRunFired).length

end Runner

/-- The spec's wording of the Market Selector filter: an instance survives
when it has a parseable strike and a present, strictly future settlement
time. -/
def surviving (now : ℤ) (m : Kalshi.Market) : Prop :=
  (Kalshi.parseStrikePrice m).isSome ∧
    ∃ t, Kalshi.parseExpiration m = some t ∧ now < t

/-- Concrete test market: strike 100000 from `floor_strike`, settles at epoch
millisecond 3600000, asks 60¢/40¢. -/
def M0 : Kalshi.Market :=
  { ticker := "M1", event_ticker := some "E1", titleStrike := none,
    tickerStrike := none, floor_strike := some 100000, ceiling_strike := none,
    close_time := some 3600000, expected_expiration_time := none,
    expiration_time := none, yes_ask := some 60, no_ask := some 40 }

/-! ## Helper lemmas -/

theorem truthy_some {q : ℚ} (h : q ≠ 0) : truthy (some q) = some q := by
  simp [truthy, h]

theorem truthy_ne_zero {o : Option ℚ} {q : ℚ} (h : truthy o = some q) : q ≠ 0 := by
  unfold truthy at h
  cases o with
  | none => simp at h
  | some x =>
    simp only [Option.bind] at h
    by_cases hx : x = 0
    · simp [hx] at h
    · simp [hx] at h
      exact h ▸ hx

theorem jsRound_le_of_le {q : ℚ} {n : ℤ} (h : q ≤ (n : ℚ)) : jsRound q ≤ n := by
  unfold jsRound
  rw [Int.floor_le_iff]
  linarith

theorem le_jsRound_of_le {q : ℚ} {n : ℤ} (h : (n : ℚ) ≤ q) : n ≤ jsRound q := by
  unfold jsRound
  rw [Int.le_floor]
  linarith

theorem strikeCandidate_gt {o : Option ℚ} {s : ℚ}
    (h : Kalshi.strikeCandidate o = some s) : 1000 < s := by
  unfold Kalshi.strikeCandidate at h
  cases o with
  | none => simp at h
  | some x =>
    simp only [Option.bind] at h
    by_cases hx : x > 1000
    · simp [hx] at h
      exact h ▸ hx
    · simp [hx] at h

theorem parseStrikePrice_gt {m : Kalshi.Market} {s : ℚ}
    (h : Kalshi.parseStrikePrice m = some s) : 1000 < s := by
  unfold Kalshi.parseStrikePrice at h
  rcases h1 : Kalshi.strikeCandidate m.titleStrike with _ | v1
  · rcases h2 : Kalshi.strikeCandidate m.tickerStrike with _ | v2
    · rcases h3 : Kalshi.strikeCandidate m.floor_strike with _ | v3
      · rcases h4 : Kalshi.strikeCandidate m.ceiling_strike with _ | v4
        · simp [Option.orElse, h1, h2, h3, h4] at h
        · simp [Option.orElse, h1, h2, h3, h4] at h
          exact h ▸ strikeCandidate_gt h4
      · simp [Option.orElse, h1, h2, h3] at h
        exact h ▸ strikeCandidate_gt h3
    · simp [Option.orElse, h1, h2] at h
      exact h ▸ strikeCandidate_gt h2
  · simp [Option.orElse, h1] at h
    exact h ▸ strikeCandidate_gt h1

theorem currentPriceOf_ne_zero {a b : Option ℚ} {cp : ℚ}
    (h : RunnerLate.currentPriceOf a b = some cp) : cp ≠ 0 := by
  unfold RunnerLate.currentPriceOf at h
  rcases ha : truthy a with _ | v
  · simp [Option.orElse, ha] at h
    exact truthy_ne_zero h
  · simp [Option.orElse, ha] at h
    exact truthy_ne_zero (h ▸ ha)

theorem pickBestMarket_mem_props {markets : List Kalshi.Market} {cp : Option ℚ}
    {now : ℤ} {m : Kalshi.Market}
    (h : Kalshi.pickBestMarket markets cp now = some m) :
    m ∈ markets ∧ (Kalshi.parseStrikePrice m).isSome ∧
      ∃ t, Kalshi.parseExpiration m = some t ∧ now < t := by
  unfold Kalshi.pickBestMarket at h
  split at h
  · exact absurd h (by simp)
  · split at h
    · exact absurd h (by simp)
    · have hmem : m ∈ (markets.filter (Kalshi.marketFilter now)).mergeSort _ :=
        List.mem_of_mem_head? (by rw [h]; exact rfl)
      have hmem2 : m ∈ markets.filter (Kalshi.marketFilter now) :=
        (List.mergeSort_perm (markets.filter (Kalshi.marketFilter now)) _).mem_iff.mp hmem
      rw [List.mem_filter] at hmem2
      obtain ⟨hm, hf⟩ := hmem2
      unfold Kalshi.marketFilter at hf
      rw [Bool.and_eq_true] at hf
      obtain ⟨hs, he⟩ := hf
      refine ⟨hm, hs, ?_⟩
      revert he
      cases hexp : Kalshi.parseExpiration m with
      | none => intro he; exact absurd he (by simp)
      | some t => intro he; exact ⟨t, rfl, by simpa using he⟩

theorem marketFilter_false_of_not_surviving {now : ℤ} {m : Kalshi.Market}
    (h : ¬ surviving now m) : Kalshi.marketFilter now m = false := by
  unfold Kalshi.marketFilter
  unfold surviving at h
  push_neg at h
  cases hs : (Kalshi.parseStrikePrice m).isSome
  · simp [hs]
  · cases he : Kalshi.parseExpiration m with
    | none => simp [hs, he]
    | some t =>
      have := h (by simp [hs]) t he
      simp [hs, he]
      omega

theorem runner_side_char (cp sp eim : ℚ) (ta : Option Ta) (hcp : cp ≠ 0) (hsp : sp ≠ 0) :
    (Runner.calculatePrediction (some cp) (some sp) ta eim).side =
      some (if sp < cp then "yes" else "no") := by
  unfold Runner.calculatePrediction
  rw [truthy_some hcp, truthy_some hsp]
  simp only []
  by_cases h : cp - sp > 0
  · rw [if_pos h, if_pos (by linarith)]
  · rw [if_neg h, if_neg (by intro hh; exact h (by linarith))]

set_option maxHeartbeats 1600000 in
theorem tool_side_char (cp sp eim : ℚ) (hcp : cp ≠ 0) (hsp : sp ≠ 0) :
    (Tool.calculatePrediction (some cp) (some sp) none eim none).side =
      some (if |(cp - sp) / sp| * 100 > 0.5 ∧ cp - sp > 0 then "YES" else "NO") := by
  unfold Tool.calculatePrediction
  rw [truthy_some hcp, truthy_some hsp]
  simp only [Option.bind, truthy, Tool.momentumAdjOf, Tool.orderbookAdjOf,
    Tool.volatilityPenaltyOf]
  by_cases hA : (|(cp - sp) / sp| * 100 > (0.5 : ℚ)) <;> by_cases hB : cp - sp > 0
  · have hres : (if |(cp - sp) / sp| * 100 > (0.5:ℚ) ∧ cp - sp > 0 then "YES" else "NO") = "YES" :=
      if_pos ⟨hA, hB⟩
    rw [hres]
    split_ifs <;> first | rfl | (exfalso; first | linarith | norm_num at *)
  · have hres : (if |(cp - sp) / sp| * 100 > (0.5:ℚ) ∧ cp - sp > 0 then "YES" else "NO") = "NO" :=
      if_neg fun hab => hB hab.2
    rw [hres]
    split_ifs <;> first | rfl | (exfalso; first | linarith | norm_num at *)
  · have hres : (if |(cp - sp) / sp| * 100 > (0.5:ℚ) ∧ cp - sp > 0 then "YES" else "NO") = "NO" :=
      if_neg fun hab => hA hab.1
    rw [hres]
    split_ifs <;> first | rfl | (exfalso; first | linarith | norm_num at *)
  · have hres : (if |(cp - sp) / sp| * 100 > (0.5:ℚ) ∧ cp - sp > 0 then "YES" else "NO") = "NO" :=
      if_neg fun hab => hA hab.1
    rw [hres]
    split_ifs <;> first | rfl | (exfalso; first | linarith | norm_num at *)

theorem tool_conf_pack (x : ℚ) :
    5 ≤ jsRound (if (if max 10 (min 95 x) > 50 then "YES" else "NO") = "YES"
                 then max 10 (min 95 x) else 100 - max 10 (min 95 x)) ∧
      jsRound (if (if max 10 (min 95 x) > 50 then "YES" else "NO") = "YES"
               then max 10 (min 95 x) else 100 - max 10 (min 95 x)) ≤ 95 := by
  have h10 : (10 : ℚ) ≤ max 10 (min 95 x) := le_max_left _ _
  have h95 : max 10 (min 95 x) ≤ 95 := max_le (by norm_num) (min_le_left _ _)
  by_cases h : max 10 (min 95 x) > 50
  · rw [if_pos h, if_pos rfl]
    exact ⟨le_jsRound_of_le (by push_cast; linarith),
      jsRound_le_of_le (by push_cast; linarith)⟩
  · rw [if_neg h, if_neg (by decide)]
    exact ⟨le_jsRound_of_le (by push_cast; linarith),
      jsRound_le_of_le (by push_cast; linarith)⟩

theorem runner_conf_pack (x : ℚ) :
    30 ≤ jsRound (max 30 (min 95 x)) ∧ jsRound (max 30 (min 95 x)) ≤ 95 := by
  have h30 : (30 : ℚ) ≤ max 30 (min 95 x) := le_max_left _ _
  have h95 : max 30 (min 95 x) ≤ 95 := max_le (by norm_num) (min_le_left _ _)
  exact ⟨le_jsRound_of_le (by push_cast; linarith),
    jsRound_le_of_le (by push_cast; linarith)⟩

theorem tool_momentum_bound (above : Bool) (d : Option ℚ) :
    |Tool.momentumAdjOf above d| ≤ 5 := by
  unfold Tool.momentumAdjOf
  cases d with
  | none => norm_num
  | some q => dsimp only; split_ifs <;> norm_num

theorem runner_momentum_bound (above : Bool) (d : Option ℚ) :
    |Runner.momentumAdjustmentOf above d| ≤ 5 := by
  unfold Runner.momentumAdjustmentOf
  cases d with
  | none => norm_num
  | some q => dsimp only; split_ifs <;> norm_num

theorem runner_side_ta_free (cp sp eim : ℚ) (ta : Option Ta) :
    (Runner.calculatePrediction (some cp) (some sp) ta eim).side =
      (Runner.calculatePrediction (some cp) (some sp) none eim).side := by
  by_cases hcp : cp = 0 <;> by_cases hsp : sp = 0 <;>
    simp only [Runner.calculatePrediction, truthy, Option.bind, hcp, hsp, if_true,
      if_false, ite_true, ite_false, reduceIte]

theorem placeOrder_retry_step (env : ℕ → Exec.AttemptResult) (rc : ℕ)
    (hrc : rc < Exec.maxRetries) (hr : Exec.retryableFail (env rc) = true) :
    Exec.placeOrder env rc =
      ⟨(Exec.placeOrder env (rc+1)).success, (Exec.placeOrder env (rc+1)).error,
       (Exec.placeOrder env (rc+1)).attemptsUsed + 1,
       500 :: (Exec.placeOrder env (rc+1)).sleepsMs⟩ := by
  rw [Exec.placeOrder]
  cases henv : env rc <;> simp [Exec.retryableFail, henv, hrc, Exec.errOf] at hr ⊢

theorem placeOrder_last (env : ℕ → Exec.AttemptResult) (rc : ℕ)
    (hrc : ¬ rc < Exec.maxRetries) (hr : Exec.retryableFail (env rc) = true) :
    Exec.placeOrder env rc = ⟨false, Exec.errOf (env rc), 1, []⟩ := by
  rw [Exec.placeOrder]
  cases henv : env rc <;> simp [Exec.retryableFail, henv, hrc, Exec.errOf] at hr ⊢

theorem placeOrder_attempts_le (env : ℕ → Exec.AttemptResult) :
    ∀ (n rc : ℕ), Exec.maxRetries + 1 - rc ≤ n →
      (Exec.placeOrder env rc).attemptsUsed ≤ Exec.maxRetries + 1 - rc ∨
        (Exec.placeOrder env rc).attemptsUsed = 1 := by
  intro n
  induction n with
  | zero =>
    intro rc h
    have hrc : ¬ rc < Exec.maxRetries := by omega
    right
    rw [Exec.placeOrder]
    cases henv : env rc <;> simp [hrc]
  | succ k ih =>
    intro rc h
    by_cases hrc : rc < Exec.maxRetries
    · have hk : Exec.maxRetries + 1 - (rc + 1) ≤ k := by omega
      have hrec := ih (rc + 1) hk
      rw [Exec.placeOrder]
      cases henv : env rc <;> simp [hrc]
      · left
        rcases hrec with h1 | h1 <;> omega
      · left
        rcases hrec with h1 | h1 <;> omega
    · right
      rw [Exec.placeOrder]
      cases henv : env rc <;> simp [hrc]

theorem placeOrder_le_three (env : ℕ → Exec.AttemptResult) :
    (Exec.placeOrder env 0).attemptsUsed ≤ Exec.maxRetries + 1 := by
  rcases placeOrder_attempts_le env (Exec.maxRetries + 1) 0 (by omega) with h | h <;> omega

theorem placeOrder_transient (env : ℕ → Exec.AttemptResult)
    (h : ∀ i, Exec.retryableFail (env i) = true) :
    Exec.placeOrder env 0 =
      ⟨false, Exec.errOf (env Exec.maxRetries), Exec.maxRetries + 1, [500, 500]⟩ := by
  have e2 : Exec.placeOrder env 2 = ⟨false, Exec.errOf (env 2), 1, []⟩ :=
    placeOrder_last env 2 (by simp [Exec.maxRetries]) (h 2)
  have e1 := placeOrder_retry_step env 1 (by simp [Exec.maxRetries]) (h 1)
  have e0 := placeOrder_retry_step env 0 (by simp [Exec.maxRetries]) (h 0)
  rw [e0, e1, e2]
  simp [Exec.maxRetries]

theorem positionSize_clamped (b p : Option ℚ) :
    RunnerLate.minContracts ≤ RunnerLate.calculatePositionSize b p ∧
      RunnerLate.calculatePositionSize b p ≤ RunnerLate.maxContracts := by
  unfold RunnerLate.calculatePositionSize
  split
  · constructor
    · exact le_max_left _ _
    · exact max_le (by norm_num [RunnerLate.minContracts, RunnerLate.maxContracts])
        (min_le_left _ _)
  · constructor
    · exact le_refl _
    · norm_num [RunnerLate.minContracts, RunnerLate.maxContracts]

theorem lateFireCount_zero_of_marker (h : ℕ) :
    ∀ polls : List Poll, (∀ p ∈ polls, p.hour = h) →
      RunnerLate.fireCount (h : ℤ) polls = 0 := by
  intro polls
  induction polls with
  | nil => intro _; rfl
  | cons p ps ih =>
    intro hall
    have hp : p.hour = h := hall p (by simp)
    have hstep : RunnerLate.checkAndRun (h : ℤ) p = ((h : ℤ), false) := by
      unfold RunnerLate.checkAndRun
      rw [if_neg]
      intro hcontra
      exact hcontra.2 (by rw [hp])
    unfold RunnerLate.fireCount
    rw [hstep]
    simp only [if_neg]
    have := ih (fun q hq => hall q (by simp [hq]))
    simpa using this

theorem lateFireCount_le_one (h : ℕ) (init : ℤ) :
    ∀ polls : List Poll, (∀ p ∈ polls, p.hour = h) →
      RunnerLate.fireCount init polls ≤ 1 := by
  intro polls
  induction polls generalizing init with
  | nil => intro _; simp [RunnerLate.fireCount]
  | cons p ps ih =>
    intro hall
    have hp : p.hour = h := hall p (by simp)
    have hrest : ∀ q ∈ ps, q.hour = h := fun q hq => hall q (by simp [hq])
    unfold RunnerLate.fireCount RunnerLate.checkAndRun
    split
    · dsimp only
      rw [hp, lateFireCount_zero_of_marker h ps hrest]
      simp
    · dsimp only
      simpa using ih init hrest

/-! ## Claim C1 -/

/-- Claim C1, counterexample: in `tool.js`, with the reference price 100100
above the strike 100000 (within 0.5 %), no technical signal and all
adjustments zero, the combined score is exactly neutral and
`calculatePrediction` returns side `"NO"` — not the raw price-position side
`"YES"`. -/
theorem C1_counterexample :
    (Tool.calculatePrediction (some 100100) (some 100000) none 60 none).side = some "NO"
    ∧ (100000 : ℚ) < 100100 := by
  constructor
  · unfold Tool.calculatePrediction
    norm_num [truthy, Tool.momentumAdjOf, Tool.orderbookAdjOf, Tool.volatilityPenaltyOf,
      show |(1 : ℚ) / 1000| = 1 / 1000 from by norm_num]
  · norm_num

/-- Claim C1 (amended): with the technical signal absent and all adjustments
zero, the runner variants' `calculatePrediction` side always equals the raw
price-position side; `tool.js`'s `calculatePrediction` side equals the raw
price-position side exactly when the price is above the strike by more than
0.5 % — below the strike, and above it by at most 0.5 % (in particular at an
exactly neutral combined score), it returns `"NO"`. -/
theorem C1_side_vs_price_position (cp sp eim : ℚ) (ta : Option Ta)
    (hcp : cp ≠ 0) (hsp : sp ≠ 0) :
    (Runner.calculatePrediction (some cp) (some sp) ta eim).side =
      some (if sp < cp then "yes" else "no")
    ∧ (Tool.calculatePrediction (some cp) (some sp) none eim none).side =
      some (if |(cp - sp) / sp| * 100 > 0.5 ∧ cp - sp > 0 then "YES" else "NO") :=
  ⟨runner_side_char cp sp eim ta hcp hsp, tool_side_char cp sp eim hcp hsp⟩

/-- Witness for C1's amended theorem at reference price 2, strike 1. -/
theorem C1_side_vs_price_position_witness :
    ((2 : ℚ) ≠ 0 ∧ (1 : ℚ) ≠ 0)
    ∧ ((Runner.calculatePrediction (some 2) (some 1) none 60).side =
        some (if (1 : ℚ) < 2 then "yes" else "no")
      ∧ (Tool.calculatePrediction (some 2) (some 1) none 60 none).side =
        some (if |((2 : ℚ) - 1) / 1| * 100 > 0.5 ∧ (2 : ℚ) - 1 > 0 then "YES" else "NO")) :=
  ⟨⟨by norm_num, by norm_num⟩,
    C1_side_vs_price_position 2 1 60 none (by norm_num) (by norm_num)⟩

/-! ## Claim C2 -/

/-- Claim C2, counterexample: on the missing-data path (`currentPrice`
absent) `tool.js`'s `calculatePrediction` returns confidence exactly 0, so
confidence is not always strictly inside [0,100]. -/
theorem C2_counterexample :
    (Tool.calculatePrediction none (some 100000) none 60 none).confidence = 0 := rfl

/-- Claim C2 (amended): when both prices are present (truthy), the returned
confidence of `tool.js`'s fusion lies in [5, 95] and that of the runner
variants' fusion lies in [30, 95] — both strictly inside [0,100]; on the
missing-data path (either price absent) the confidence is exactly 0. -/
theorem C2_confidence_bounds (cp sp eim : ℚ) (ta : Option Ta)
    (ob : Option OrderbookSummary) (hcp : cp ≠ 0) (hsp : sp ≠ 0) :
    (5 ≤ (Tool.calculatePrediction (some cp) (some sp) ta eim ob).confidence
      ∧ (Tool.calculatePrediction (some cp) (some sp) ta eim ob).confidence ≤ 95)
    ∧ (30 ≤ (Runner.calculatePrediction (some cp) (some sp) ta eim).confidence
      ∧ (Runner.calculatePrediction (some cp) (some sp) ta eim).confidence ≤ 95)
    ∧ (Tool.calculatePrediction none (some sp) ta eim ob).confidence = 0
    ∧ (Runner.calculatePrediction (some cp) none ta eim).confidence = 0 := by
  refine ⟨?_, ?_, rfl, ?_⟩
  · unfold Tool.calculatePrediction
    rw [truthy_some hcp, truthy_some hsp]
    exact tool_conf_pack _
  · unfold Runner.calculatePrediction
    rw [truthy_some hcp, truthy_some hsp]
    exact runner_conf_pack _
  · by_cases h : cp = 0 <;> simp [Runner.calculatePrediction, truthy, h]

/-- Witness for C2's amended theorem at reference price 2, strike 1. -/
theorem C2_confidence_bounds_witness :
    ((2 : ℚ) ≠ 0 ∧ (1 : ℚ) ≠ 0)
    ∧ ((5 ≤ (Tool.calculatePrediction (some 2) (some 1) none 60 none).confidence
        ∧ (Tool.calculatePrediction (some 2) (some 1) none 60 none).confidence ≤ 95)
      ∧ (30 ≤ (Runner.calculatePrediction (some 2) (some 1) none 60).confidence
        ∧ (Runner.calculatePrediction (some 2) (some 1) none 60).confidence ≤ 95)
      ∧ (Tool.calculatePrediction none (some 1) none 60 none).confidence = 0
      ∧ (Runner.calculatePrediction (some 2) none none 60).confidence = 0) :=
  ⟨⟨by norm_num, by norm_num⟩,
    C2_confidence_bounds 2 1 60 none none (by norm_num) (by norm_num)⟩

/-! ## Claim C4 -/

/-- Claim C4, counterexample: a run whose every attempt fails with a non-2xx
response (body not JSON-parseable, e.g. a gateway HTML error page) is NOT
retried: `placeOrder` resolves failure after a single attempt instead of
`maxRetries + 1` attempts. -/
theorem C4_counterexample :
    Exec.placeOrder (fun _ => Exec.AttemptResult.httpFailRaw "502 Bad Gateway") 0 =
      { success := false, error := some "502 Bad Gateway", attemptsUsed := 1, sleepsMs := [] }
    ∧ (1 : ℕ) ≠ Exec.maxRetries + 1 := by
  constructor
  · simp [Exec.placeOrder]
  · decide

/-- Claim C4 (amended): a run whose every attempt fails with a retried
transient failure — a non-2xx response whose body parses as JSON, or a
network error — performs exactly `maxRetries` (= 2) retries with a fixed
500 ms backoff before each, reports a final failure carrying the last
attempt's error, and issues exactly `maxRetries + 1` = 3 attempts; moreover
no run whatsoever issues more than `maxRetries + 1` attempts.  (A non-2xx
response with an unparseable body resolves failure immediately, as the
counterexample shows.) -/
theorem C4_retry_ceiling (env : ℕ → Exec.AttemptResult)
    (h : ∀ i, Exec.retryableFail (env i) = true) :
    Exec.placeOrder env 0 =
      { success := false, error := Exec.errOf (env Exec.maxRetries),
        attemptsUsed := Exec.maxRetries + 1, sleepsMs := [500, 500] }
    ∧ ∀ env2 : ℕ → Exec.AttemptResult,
        (Exec.placeOrder env2 0).attemptsUsed ≤ Exec.maxRetries + 1 :=
  ⟨placeOrder_transient env h, fun env2 => placeOrder_le_three env2⟩

/-- Witness for C4's amended theorem: every attempt is a network error. -/
theorem C4_retry_ceiling_witness :
    (∀ i : ℕ, Exec.retryableFail
        ((fun _ => Exec.AttemptResult.netError "connection refused") i) = true)
    ∧ (Exec.placeOrder (fun _ => Exec.AttemptResult.netError "connection refused") 0 =
        { success := false,
          error := Exec.errOf
            ((fun _ => Exec.AttemptResult.netError "connection refused") Exec.maxRetries),
          attemptsUsed := Exec.maxRetries + 1, sleepsMs := [500, 500] }
      ∧ ∀ env2 : ℕ → Exec.AttemptResult,
          (Exec.placeOrder env2 0).attemptsUsed ≤ Exec.maxRetries + 1) :=
  ⟨fun _ => rfl, C4_retry_ceiling _ (fun _ => rfl)⟩

/-! ## Claim C5 -/

/-- Claim C5, counterexample: a run whose first attempt times out resolves
after exactly one attempt, while a run whose attempts are network errors is
retried to `maxRetries + 1` attempts — a timeout is NOT treated like a
network error for retry purposes. -/
theorem C5_counterexample :
    (Exec.placeOrder (fun _ => Exec.AttemptResult.timeout) 0).attemptsUsed = 1
    ∧ (Exec.placeOrder (fun _ => Exec.AttemptResult.netError "ECONNRESET") 0).attemptsUsed =
        Exec.maxRetries + 1 := by
  constructor
  · simp [Exec.placeOrder]
  · simp [Exec.placeOrder, Exec.maxRetries]

/-- Claim C5 (amended): a timed-out submission attempt is never retried: at
any retry count, `placeOrder` resolves immediately with the final failure
`"Request timeout"` after that single attempt. -/
theorem C5_timeout_never_retried (env : ℕ → Exec.AttemptResult) (rc : ℕ)
    (h : env rc = Exec.AttemptResult.timeout) :
    Exec.placeOrder env rc =
      { success := false, error := some "Request timeout", attemptsUsed := 1,
        sleepsMs := [] } := by
  rw [Exec.placeOrder, h]

/-- Witness for C5's amended theorem at retry count 0. -/
theorem C5_timeout_never_retried_witness :
    ((fun _ => Exec.AttemptResult.timeout) 0 = Exec.AttemptResult.timeout)
    ∧ Exec.placeOrder (fun _ => Exec.AttemptResult.timeout) 0 =
      { success := false, error := some "Request timeout", attemptsUsed := 1,
        sleepsMs := [] } :=
  ⟨rfl, C5_timeout_never_retried _ 0 rfl⟩

/-! ## Claim C3 -/

open RunnerLate in
/-- Claim C3: the `runTrade` veto sequence of `runner-late.js` is
deterministic and reports exactly the first matching condition of the
documented order — missing data, then distance-from-strike below the floor,
then volatility above the ceiling, then (momentum-adjusted) confidence below
the minimum, then execution price missing or too high (`specFirstVeto`) —
and whenever any documented veto condition holds, the cycle places no
order. -/
theorem C3_veto_order_first_match (spot tick : Option ℚ)
    (markets : List Kalshi.Market) (candles : List Candle) (ta : Option Ta)
    (balance : Option ℚ) (now : ℤ) :
    vetoOfResult (runTrade spot tick markets candles ta balance now)
      = specFirstVeto spot tick markets candles ta now
    ∧ (((specFirstVeto spot tick markets candles ta now).isSome &&
        (runTrade spot tick markets candles ta balance now).isPlaced) = false) := by
  cases hcp : currentPriceOf spot tick with
  | none =>
    simp [runTrade, specFirstVeto, tradeCtx, hcp, vetoOfResult, TradeResult.isPlaced]
  | some cp =>
    by_cases hempty : (Kalshi.getNextEventMarkets markets now).isEmpty
    · have hpick : Kalshi.pickBestMarket (Kalshi.getNextEventMarkets markets now)
          (some cp) now = none := by
        simp [Kalshi.pickBestMarket, hempty]
      simp [runTrade, specFirstVeto, tradeCtx, hcp, hempty, hpick, vetoOfResult,
        TradeResult.isPlaced]
    · cases hpick : Kalshi.pickBestMarket (Kalshi.getNextEventMarkets markets now)
          (some cp) now with
      | none =>
        simp [runTrade, specFirstVeto, tradeCtx, hcp, hempty, hpick, vetoOfResult,
          TradeResult.isPlaced]
      | some best =>
        have hctx : tradeCtx spot tick markets now = some (cp, best) := by
          simp [tradeCtx, hcp, hpick]
        obtain ⟨hmem, hs, t, ht, htn⟩ := pickBestMarket_mem_props hpick
        obtain ⟨s, hs2⟩ := Option.isSome_iff_exists.mp hs
        have hsgt := parseStrikePrice_gt hs2
        have hcp0 : cp ≠ 0 := currentPriceOf_ne_zero hcp
        have hside : (predictionOf cp best ta now).side =
            some (if s < cp then "yes" else "no") := by
          unfold predictionOf
          rw [hs2]
          exact runner_side_char cp s _ ta hcp0
            (by intro hz; rw [hz] at hsgt; norm_num at hsgt)
        by_cases h2 : |cp - (Kalshi.parseStrikePrice best).getD 0| < coinFlipThreshold
        · simp [runTrade, specFirstVeto, hctx, hcp, hempty, hpick, h2, tooCloseCondOf,
            vetoOfResult, TradeResult.isPlaced]
        · by_cases h3 : highVolatilityOf candles cp = true
          · simp [runTrade, specFirstVeto, hctx, hcp, hempty, hpick, h2, h3,
              tooCloseCondOf, volCondOf, vetoOfResult, TradeResult.isPlaced]
          · by_cases h4 : adjustedConfidenceOf (predictionOf cp best ta now) candles <
                minConfidence
            · simp [runTrade, specFirstVeto, hctx, hcp, hempty, hpick, h2, h3, h4, hside,
                tooCloseCondOf, volCondOf, confCondOf, vetoOfResult, TradeResult.isPlaced]
            · by_cases hlt : s < cp
              · have hside2 : (predictionOf cp best ta now).side = some "yes" := by
                  rw [hside, if_pos hlt]
                cases hask : truthy best.yes_ask with
                | none =>
                  simp [runTrade, specFirstVeto, hctx, hcp, hempty, hpick, h2, h3, h4,
                    hside2, hask, tooCloseCondOf, volCondOf, confCondOf, badPriceCondOf,
                    vetoOfResult, TradeResult.isPlaced]
                | some a =>
                  by_cases h5 : a ≥ 100
                  · simp [runTrade, specFirstVeto, hctx, hcp, hempty, hpick, h2, h3, h4,
                      h5, hside2, hask, tooCloseCondOf, volCondOf, confCondOf,
                      badPriceCondOf, vetoOfResult, TradeResult.isPlaced]
                  · cases hbal : truthy balance with
                    | none =>
                      simp [runTrade, specFirstVeto, hctx, hcp, hempty, hpick, h2, h3,
                        h4, h5, hside2, hask, hbal, tooCloseCondOf, volCondOf,
                        confCondOf, badPriceCondOf, vetoOfResult, TradeResult.isPlaced]
                    | some b =>
                      simp [runTrade, specFirstVeto, hctx, hcp, hempty, hpick, h2, h3,
                        h4, h5, hside2, hask, hbal, tooCloseCondOf, volCondOf,
                        confCondOf, badPriceCondOf, vetoOfResult, TradeResult.isPlaced]
              · have hside2 : (predictionOf cp best ta now).side = some "no" := by
                  rw [hside, if_neg hlt]
                cases hask : truthy best.no_ask with
                | none =>
                  simp [runTrade, specFirstVeto, hctx, hcp, hempty, hpick, h2, h3, h4,
                    hside2, hask, tooCloseCondOf, volCondOf, confCondOf, badPriceCondOf,
                    vetoOfResult, TradeResult.isPlaced]
                | some a =>
                  by_cases h5 : a ≥ 100
                  · simp [runTrade, specFirstVeto, hctx, hcp, hempty, hpick, h2, h3, h4,
                      h5, hside2, hask, tooCloseCondOf, volCondOf, confCondOf,
                      badPriceCondOf, vetoOfResult, TradeResult.isPlaced]
                  · cases hbal : truthy balance with
                    | none =>
                      simp [runTrade, specFirstVeto, hctx, hcp, hempty, hpick, h2, h3,
                        h4, h5, hside2, hask, hbal, tooCloseCondOf, volCondOf,
                        confCondOf, badPriceCondOf, vetoOfResult, TradeResult.isPlaced]
                    | some b =>
                      simp [runTrade, specFirstVeto, hctx, hcp, hempty, hpick, h2, h3,
                        h4, h5, hside2, hask, hbal, tooCloseCondOf, volCondOf,
                        confCondOf, badPriceCondOf, vetoOfResult, TradeResult.isPlaced]

/-! ## Claim C6 -/

/-- Claim C6, counterexample: a cycle in which everything succeeds except the
balance fetch (`balance = null`) is SKIPPED (`vetoNoBalance`), not placed
with the fallback minimum size; the identical cycle with a balance places an
order. -/
theorem C6_counterexample :
    RunnerLate.runTrade (some 100500) none [M0] [] none none 0 =
      RunnerLate.TradeResult.vetoNoBalance
    ∧ RunnerLate.runTrade (some 100500) none [M0] [] none (some 1000) 0 =
      RunnerLate.TradeResult.placed "yes" 100 60 := by
  constructor
  · simp only [RunnerLate.runTrade, RunnerLate.currentPriceOf, truthy, M0,
      Kalshi.getNextEventMarkets, Kalshi.dedupFirst, Kalshi.pickBestMarket,
      Kalshi.marketFilter, Kalshi.parseStrikePrice, Kalshi.parseExpiration,
      Kalshi.strikeCandidate, RunnerLate.predictionOf, Runner.calculatePrediction,
      Runner.taAdjustmentOf, Runner.momentumAdjustmentOf, jsRound,
      RunnerLate.adjustedConfidenceOf, RunnerLate.highVolatilityOf,
      RunnerLate.coinFlipThreshold, RunnerLate.minConfidence,
      List.foldl, List.filterMap, List.filter, List.isEmpty, Option.bind,
      List.mergeSort_singleton, List.head?, Option.orElse, Option.getD]
    norm_num [show |(1 : ℚ) / 200| = 1 / 200 from by norm_num]
  · simp only [RunnerLate.runTrade, RunnerLate.currentPriceOf, truthy, M0,
      Kalshi.getNextEventMarkets, Kalshi.dedupFirst, Kalshi.pickBestMarket,
      Kalshi.marketFilter, Kalshi.parseStrikePrice, Kalshi.parseExpiration,
      Kalshi.strikeCandidate, RunnerLate.predictionOf, Runner.calculatePrediction,
      Runner.taAdjustmentOf, Runner.momentumAdjustmentOf, jsRound,
      RunnerLate.adjustedConfidenceOf, RunnerLate.highVolatilityOf,
      RunnerLate.coinFlipThreshold, RunnerLate.minConfidence,
      RunnerLate.calculatePositionSize, RunnerLate.positionSizePct,
      RunnerLate.minContracts, RunnerLate.maxContracts,
      List.foldl, List.filterMap, List.filter, List.isEmpty, Option.bind,
      List.mergeSort_singleton, List.head?, Option.orElse, Option.getD]
    norm_num [show |(1 : ℚ) / 200| = 1 / 200 from by norm_num]

/-- Claim C6 (amended): when the balance cannot be retrieved the cycle of
`runner-late.js` aborts without placing any order (it does not fall back);
`calculatePositionSize` itself returns the fixed minimum on missing inputs,
and its result is always clamped into `[minContracts, maxContracts]`. -/
theorem C6_missing_balance_skips (spot tick : Option ℚ)
    (markets : List Kalshi.Market) (candles : List Candle) (ta : Option Ta)
    (now : ℤ) :
    (RunnerLate.runTrade spot tick markets candles ta none now).isPlaced = false
    ∧ (∀ p, RunnerLate.calculatePositionSize none p = RunnerLate.minContracts)
    ∧ ∀ b p, RunnerLate.minContracts ≤ RunnerLate.calculatePositionSize b p
        ∧ RunnerLate.calculatePositionSize b p ≤ RunnerLate.maxContracts := by
  refine ⟨?_, fun p => rfl, fun b p => positionSize_clamped b p⟩
  unfold RunnerLate.runTrade
  repeat first | rfl | split | dsimp only
  all_goals simp_all [truthy]

/-! ## Claim C7 -/

/-- Claim C7, counterexample: in `tool.js`, with the reference price 99900
below the strike 100000, the +5 momentum nudge alone flips the side from
`"NO"` (its value with a zero momentum adjustment and everything else held
fixed) to `"YES"`. -/
theorem C7_counterexample :
    (Tool.calculatePrediction (some 99900) (some 100000)
        (some { upProbability := none, delta1m := some (-10), delta5m := none })
        60 none).side = some "YES"
    ∧ (Tool.calculatePrediction (some 99900) (some 100000) none 60 none).side = some "NO"
    ∧ (99900 : ℚ) < 100000 := by
  refine ⟨?_, ?_, by norm_num⟩
  · unfold Tool.calculatePrediction
    norm_num [truthy, Tool.momentumAdjOf, Tool.orderbookAdjOf, Tool.volatilityPenaltyOf,
      show |(1 : ℚ) / 1000| = 1 / 1000 from by norm_num]
  · unfold Tool.calculatePrediction
    norm_num [truthy, Tool.momentumAdjOf, Tool.orderbookAdjOf, Tool.volatilityPenaltyOf,
      show |(1 : ℚ) / 1000| = 1 / 1000 from by norm_num]

/-- Claim C7 (amended): both momentum adjustments are bounded by 5 points in
magnitude; in the runner variants the momentum nudge can never change the
side (the side is independent of the whole technical bundle); in `tool.js`
the bounded nudge CAN flip the side on its own, as the counterexample
shows. -/
theorem C7_momentum_bounded (above : Bool) (d : Option ℚ) (cp sp eim : ℚ)
    (ta : Option Ta) :
    |Tool.momentumAdjOf above d| ≤ 5
    ∧ |Runner.momentumAdjustmentOf above d| ≤ 5
    ∧ (Runner.calculatePrediction (some cp) (some sp) ta eim).side =
        (Runner.calculatePrediction (some cp) (some sp) none eim).side :=
  ⟨tool_momentum_bound above d, runner_momentum_bound above d,
    runner_side_ta_free cp sp eim ta⟩

/-! ## Claim C8 -/

/-- Claim C8: `pickBestMarket` never returns a market whose settlement time
is at or before `now`: any returned market has a parseable strike and a
present, strictly future expiration; and when no candidate survives the
filter (missing or past expiration, or no parseable strike), it returns
`none`. -/
theorem C8_selector_future_only (markets : List Kalshi.Market) (cp : Option ℚ)
    (now : ℤ) :
    (∀ m, Kalshi.pickBestMarket markets cp now = some m →
       (Kalshi.parseStrikePrice m).isSome ∧
         ∃ t, Kalshi.parseExpiration m = some t ∧ now < t)
    ∧ ((∀ m ∈ markets, ¬ surviving now m) →
        Kalshi.pickBestMarket markets cp now = none) := by
  constructor
  · intro m hm
    exact (pickBestMarket_mem_props hm).2
  · intro h
    unfold Kalshi.pickBestMarket
    split
    · rfl
    · split
      · rfl
      · have hfil : markets.filter (Kalshi.marketFilter now) = [] := by
          rw [List.filter_eq_nil_iff]
          intro m hm
          simp [marketFilter_false_of_not_surviving (h m hm)]
        rw [hfil]
        simp

/-- Witness for C8: the selector picks `M0` (future settlement, parseable
strike) from a singleton list, and returns `none` on the empty list. -/
theorem C8_selector_future_only_witness :
    ((Kalshi.parseStrikePrice M0).isSome ∧
      ∃ t, Kalshi.parseExpiration M0 = some t ∧ (0 : ℤ) < t)
    ∧ Kalshi.pickBestMarket [] (some 1) 0 = none :=
  ⟨(C8_selector_future_only [M0] (some 100500) 0).1 M0
      (by
        simp only [Kalshi.pickBestMarket, Kalshi.marketFilter, Kalshi.parseStrikePrice,
          Kalshi.parseExpiration, Kalshi.strikeCandidate, M0, truthy, List.filter,
          List.isEmpty, Option.bind, List.mergeSort_singleton, List.head?, Option.orElse]
        norm_num),
    (C8_selector_future_only [] (some 1) 0).2 (by simp)⟩

/-! ## Claim C9 -/

/-- Claim C9, counterexample: `runner.js`'s daemon has no per-hour marker;
polled every second through the trigger minute (here twice in minute 54 of
hour 10, a single calendar hour), its check fires twice. -/
theorem C9_counterexample :
    Runner.fireCount [⟨10, 54, 0⟩, ⟨10, 54, 1⟩] = 2
    ∧ (∀ p ∈ [(⟨10, 54, 0⟩ : Poll), ⟨10, 54, 1⟩], p.hour = 10)
    ∧ ¬ Runner.fireCount [(⟨10, 54, 0⟩ : Poll), ⟨10, 54, 1⟩] ≤ 1 := by
  decide

/-- Claim C9 (amended): `runner-late.js`'s daemon maintains the
`lastRunHour` marker, so over any poll sequence lying within a single
calendar hour (all polls sharing the hour `h`), and from any initial marker
value, the cycle fires at most once; `runner.js`'s marker-less daemon does
not have this property, as the counterexample shows. -/
theorem C9_late_daemon_once_per_hour (h : ℕ) (init : ℤ) (polls : List Poll)
    (hall : ∀ p ∈ polls, p.hour = h) :
    RunnerLate.fireCount init polls ≤ 1 :=
  lateFireCount_le_one h init polls hall

/-- Witness for C9's amended theorem: two polls in the trigger minute of
hour 10, starting from the daemon's initial marker −1. -/
theorem C9_late_daemon_once_per_hour_witness :
    (∀ p ∈ [(⟨10, 50, 0⟩ : Poll), ⟨10, 50, 1⟩], p.hour = 10)
    ∧ RunnerLate.fireCount (-1) [(⟨10, 50, 0⟩ : Poll), ⟨10, 50, 1⟩] ≤ 1 :=
  ⟨by decide, C9_late_daemon_once_per_hour 10 (-1) _ (by decide)⟩

/-! ## Claim C10 -/

/-- Claim C10: when a limit order is constructed, the submitted price field
equals `min(99, ask + 1)` in `runner-late.js` and `min(99, ask + 2)` in
`runner.js`'s limit branch; for any ask in the venue's 1–99 range the
submitted limit price stays within 1–99 — in particular it never exceeds 99
even when the ask is 98 or 99. -/
theorem C10_limit_price_capped (tick side : String) (count ask : ℤ)
    (h1 : 1 ≤ ask) :
    Exec.submittedPrice (RunnerLate.orderBody tick side count ask) =
      some (min 99 (ask + 1))
    ∧ Exec.submittedPrice (Runner.orderBody false tick side count ask) =
      some (min 99 (ask + 2))
    ∧ 1 ≤ min 99 (ask + 1) ∧ min 99 (ask + 1) ≤ 99
    ∧ 1 ≤ min 99 (ask + 2) ∧ min 99 (ask + 2) ≤ 99 := by
  refine ⟨?_, ?_, by omega, by omega, by omega, by omega⟩
  · by_cases hs : side = "yes" <;> simp [Exec.submittedPrice, RunnerLate.orderBody, hs]
  · by_cases hs : side = "yes" <;> simp [Exec.submittedPrice, Runner.orderBody, hs]

/-- Witness for C10 at ask 98: the submitted prices are `min 99 99 = 99` and
`min 99 100 = 99`. -/
theorem C10_limit_price_capped_witness :
    (1 : ℤ) ≤ 98
    ∧ (Exec.submittedPrice (RunnerLate.orderBody "M1" "yes" 10 98) =
        some (min 99 (98 + 1))
      ∧ Exec.submittedPrice (Runner.orderBody false "M1" "yes" 10 98) =
        some (min 99 (98 + 2))
      ∧ 1 ≤ min 99 ((98 : ℤ) + 1) ∧ min 99 ((98 : ℤ) + 1) ≤ 99
      ∧ 1 ≤ min 99 ((98 : ℤ) + 2) ∧ min 99 ((98 : ℤ) + 2) ≤ 99) :=
  ⟨by decide, C10_limit_price_capped "M1" "yes" 10 98 (by decide)⟩

end KBT
